import Mathlib

/-!
Shallow embedding of the emergency-assistance core in
`ai_emergency_assistance.py`: symptom triage (`_analyze_symptoms`), hospital
selection (`_select_optimal_hospital`: availability filter, clamped reciprocal
scoring, stable descending sort), and the orchestration
(`execute_emergency_protocol`), together with theorems checking the
specification's claims about them.

The simulated collaborators (`_check_hospital_availability`, `_analyze_traffic`)
draw random values; selection is therefore embedded as a function of the
per-iteration collaborator responses, one `HospitalAvailability` and one
`TrafficAnalysis` per hospital of the candidate list, and the orchestrator as a
function of the detection inputs and those responses.  Python floats are
embedded as exact rationals, Python's unbounded `int` fields `wait_time` and
`travel_time` as `Nat`: every producer in the program is non-negative
(`random.randint(5, 60)`, `int(distance * random.uniform(2, 5))` with
`distance >= 0`), and the spec's data model declares both non-negative.
-/

/-- Python `str.lower()` applied characterwise (ASCII case folding), as used on
`description` in `_analyze_symptoms`. -/
def strToLower (s : String) : String := ⟨s.data.map Char.toLower⟩

/-- Tests whether `pat` is a prefix of the second list (helper for the
substring test). -/
def matchesAt : List Char → List Char → Bool
  | [], _ => true
  | _ :: _, [] => false
  | p :: ps, c :: cs => p == c && matchesAt ps cs

/-- Helper running the prefix test at every suffix position. -/
def containsSub (pat : List Char) : List Char → Bool
  | [] => pat.isEmpty
  | c :: cs => matchesAt pat (c :: cs) || containsSub pat cs

/-- Python's substring operator `pat in s` on strings. -/
def containsSubstring (s pat : String) : Bool := containsSub pat.data s.data

/-- Latitude/longitude pair, the `coordinates` dict of the Python dataclasses. -/
structure Coordinates where
  lat : ℚ
  lon : ℚ
  deriving DecidableEq

/-- Dataclass `Hospital` of the source. -/
structure Hospital where
  id : String
  name : String
  address : String
  contact_number : String
  coordinates : Coordinates
  deriving DecidableEq

/-- Dataclass `EmergencyContact` of the source. -/
structure EmergencyContact where
  name : String
  phone : String
  deriving DecidableEq

/-- Dataclass `MedicalHistory` of the source. -/
structure MedicalHistory where
  allergies : List String
  conditions : List String
  medications : List String
  deriving DecidableEq

/-- Dataclass `HospitalAvailability` of the source: one availability report. -/
structure HospitalAvailability where
  available : Bool
  wait_time : ℕ
  deriving DecidableEq

/-- Dataclass `TrafficAnalysis` of the source: one traffic report. -/
structure TrafficAnalysis where
  travel_time : ℕ
  distance_km : ℚ
  deriving DecidableEq

/-- Entry of the `ranked_hospitals` accumulator built inside
`_select_optimal_hospital` (the dict `{"hospital": ..., "travel_time": ...,
"score": ...}`). -/
structure RankedHospital where
  hospital : Hospital
  travel_time : ℕ
  score : ℚ
  deriving DecidableEq

/-- Fixed hospital list `Config.PRESELECTED_HOSPITALS` of the source. -/
def Config.PRESELECTED_HOSPITALS : List Hospital :=
  [ { id := "hosp_a"
      name := "City General Hospital"
      address := "123 Main St, Anytown"
      contact_number := "+11234567890"
      coordinates := { lat := 34.0522, lon := -118.2437 } },
    { id := "hosp_b"
      name := "Community Care Center"
      address := "456 Oak Ave, Anytown"
      contact_number := "+11234567891"
      coordinates := { lat := 34.0600, lon := -118.2500 } } ]

/-- Fixed contact list `Config.EMERGENCY_CONTACTS` of the source. -/
def Config.EMERGENCY_CONTACTS : List EmergencyContact :=
  [ { name := "Family Member", phone := "+19876543210" },
    { name := "Close Friend", phone := "+19998887777" } ]

/-- Embeds `_analyze_symptoms`: lower-case the description, then the closed
ordered rule list; returns the pair `(summary, severity)`. -/
def _analyze_symptoms (description : String) : String × String :=
  let description := strToLower description
  if containsSubstring description "chest pain" &&
      (containsSubstring description "arm" || containsSubstring description "left") then
    ("Severe chest pain, arm numbness", "critical")
  else if containsSubstring description "difficulty breathing" then
    ("Difficulty breathing", "critical")
  else
    (description, "moderate")

/-- One iteration of the selection loop body: the availability gate
(`if availability.available`), the two `== 0` replacements, and the score
`0.7 * (1 / travel_time) + 0.3 * (1 / wait_time)`; `none` when the hospital is
excluded. -/
def mkRankedEntry (hospital : Hospital) (availability : HospitalAvailability)
    (traffic : TrafficAnalysis) : Option RankedHospital :=
  if availability.available then
    let travel_time := traffic.travel_time
    let wait_time := availability.wait_time
    let travel_time := if travel_time = 0 then 1 else travel_time
    let wait_time := if wait_time = 0 then 1 else wait_time
    some { hospital := hospital
           travel_time := travel_time
           score := 0.7 * (1 / (travel_time : ℚ)) + 0.3 * (1 / (wait_time : ℚ)) }
  else
    none

/-- One hospital of the candidate list together with the collaborator responses
the loop iteration for it received. -/
abbrev HospitalReport := Hospital × HospitalAvailability × TrafficAnalysis

/-- Accumulator `ranked_hospitals` after the loop of
`_select_optimal_hospital`: loop order is list order. -/
def ranked_hospitals (reports : List HospitalReport) : List RankedHospital :=
  reports.filterMap fun r => mkRankedEntry r.1 r.2.1 r.2.2

/-- Insertion step of a stable descending sort on `score`: an element is
inserted after every strictly greater element and before equal ones, which is
how Python's stable `sorted(..., reverse=True)` orders equal keys. -/
def insertByScoreDesc (c : RankedHospital) : List RankedHospital → List RankedHospital
  | [] => [c]
  | y :: ys => if y.score > c.score then y :: insertByScoreDesc c ys else c :: y :: ys

/-- Stable descending sort on `score`, embedding
`sorted(ranked_hospitals, key=lambda x: x['score'], reverse=True)`. -/
def sortByScoreDesc : List RankedHospital → List RankedHospital
  | [] => []
  | x :: xs => insertByScoreDesc x (sortByScoreDesc xs)

/-- Embeds `_select_optimal_hospital`: the `[]` case is the
`if not ranked_hospitals: return None` exit, the head of the descending sort is
`sorted(...)[0]['hospital']`. -/
def _select_optimal_hospital (reports : List HospitalReport) : Option Hospital :=
  match sortByScoreDesc (ranked_hospitals reports) with
  | [] => none
  | best :: _ => some best.hospital

/-- Observable effects of one `execute_emergency_protocol` run: the notify
calls (one per listed contact, in order), the `_send_emergency_alert` calls,
and whether the run exited at the no-emergency early return. -/
structure ProtocolResult where
  notified_contacts : List EmergencyContact
  alerts : List Hospital
  no_emergency : Bool
  deriving DecidableEq

/-- Embeds `execute_emergency_protocol`.  Python's
`if not voice_input and not auto_detected` is the emptiness test on the string
together with the negated flag; `_notify_contacts` logs once per contact of the
configured list, embedded as recording that list. -/
def execute_emergency_protocol (voice_input : String) (auto_detected : Bool)
    (reports : List HospitalReport) (contacts : List EmergencyContact) : ProtocolResult :=
  if voice_input = "" && !auto_detected then
    { notified_contacts := [], alerts := [], no_emergency := true }
  else
    let analysis := _analyze_symptoms voice_input
    if analysis.2 = "critical" then
      { notified_contacts := contacts, alerts := [], no_emergency := false }
    else
      match _select_optimal_hospital reports with
      | none => { notified_contacts := contacts, alerts := [], no_emergency := false }
      | some best_hospital =>
        { notified_contacts := contacts, alerts := [best_hospital], no_emergency := false }

/-- Value of the clamped denominators used in the score: `wait_time` and
`travel_time` after the `== 0` replacement by `1`. -/
def clampMin1 (n : ℕ) : ℕ := if n = 0 then 1 else n

/-- Composite score a candidate built from the given reports receives. -/
def candScore (availability : HospitalAvailability) (traffic : TrafficAnalysis) : ℚ :=
  0.7 * (1 / (clampMin1 traffic.travel_time : ℚ)) +
    0.3 * (1 / (clampMin1 availability.wait_time : ℚ))

/-- Score of the candidate a report row produces, if it produces one. -/
def reportScore (r : HospitalReport) : ℚ := candScore r.2.1 r.2.2

/-- First maximum of a candidate list: the earliest element whose score no
later element strictly exceeds. -/
def firstMaxByScore : List RankedHospital → Option RankedHospital
  | [] => none
  | x :: xs =>
    match firstMaxByScore xs with
    | none => some x
    | some m => if m.score > x.score then some m else some x


/-- Unfolding of the loop body on an available hospital. -/
lemma mkRankedEntry_of_available (hospital : Hospital) (availability : HospitalAvailability)
    (traffic : TrafficAnalysis) (h : availability.available = true) :
    mkRankedEntry hospital availability traffic =
      some { hospital := hospital
             travel_time := clampMin1 traffic.travel_time
             score := candScore availability traffic } := by
  simp [mkRankedEntry, candScore, clampMin1, h]

/-- Unavailable hospitals produce no candidate. -/
lemma mkRankedEntry_of_unavailable (hospital : Hospital) (availability : HospitalAvailability)
    (traffic : TrafficAnalysis) (h : availability.available = false) :
    mkRankedEntry hospital availability traffic = none := by
  simp [mkRankedEntry, h]

/-- Loop body produces no candidate exactly on unavailable hospitals. -/
lemma mkRankedEntry_eq_none_iff (hospital : Hospital) (availability : HospitalAvailability)
    (traffic : TrafficAnalysis) :
    mkRankedEntry hospital availability traffic = none ↔ availability.available = false := by
  cases h : availability.available <;> simp [mkRankedEntry, h]

/-- Head of the stable descending sort is the first score maximum. -/
lemma head_sortByScoreDesc (l : List RankedHospital) :
    (sortByScoreDesc l).head? = firstMaxByScore l := by
  induction l with
  | nil => rfl
  | cons x xs ih =>
    simp only [sortByScoreDesc, firstMaxByScore, ← ih]
    cases h : sortByScoreDesc xs with
    | nil => simp [h, insertByScoreDesc]
    | cons y ys =>
      by_cases hc : y.score > x.score <;> simp [insertByScoreDesc, hc]

/-- Selection is the first score maximum of the accumulated candidates. -/
lemma select_eq_firstMax (reports : List HospitalReport) :
    _select_optimal_hospital reports =
      (firstMaxByScore (ranked_hospitals reports)).map fun c => c.hospital := by
  rw [← head_sortByScoreDesc]
  cases h : sortByScoreDesc (ranked_hospitals reports) <;>
    simp [_select_optimal_hospital, h]

/-- First maximum of a list is an element of it. -/
lemma firstMaxByScore_mem : ∀ {l : List RankedHospital} {m : RankedHospital},
    firstMaxByScore l = some m → m ∈ l := by
  intro l
  induction l with
  | nil => intro m h; simp [firstMaxByScore] at h
  | cons x xs ih =>
    intro m h
    simp only [firstMaxByScore] at h
    cases hx : firstMaxByScore xs with
    | none =>
      simp only [hx, Option.some.injEq] at h
      simp [h]
    | some k =>
      simp only [hx] at h
      by_cases hks : k.score > x.score
      · simp only [if_pos hks, Option.some.injEq] at h
        exact h ▸ List.mem_cons_of_mem x (ih hx)
      · simp only [if_neg hks, Option.some.injEq] at h
        simp [h]

/-- Nobody is accumulated exactly when the list is empty. -/
lemma firstMaxByScore_eq_none {l : List RankedHospital} :
    firstMaxByScore l = none ↔ l = [] := by
  cases l with
  | nil => simp [firstMaxByScore]
  | cons x xs =>
    simp only [firstMaxByScore]
    cases hx : firstMaxByScore xs with
    | none => simp only [hx]; simp
    | some m =>
      simp only [hx]
      by_cases hms : m.score > x.score <;> simp [hms]

/-- Head element of the list is the first maximum when nothing behind it has a
strictly larger score. -/
lemma firstMaxByScore_cons_of_le (c : RankedHospital) (l : List RankedHospital)
    (h : ∀ x ∈ l, x.score ≤ c.score) : firstMaxByScore (c :: l) = some c := by
  simp only [firstMaxByScore]
  cases hx : firstMaxByScore l with
  | none => simp only [hx]
  | some m =>
    have hm : ¬ (m.score > c.score) := not_lt.mpr (h m (firstMaxByScore_mem hx))
    simp only [hx]
    simp [hm]

/-- First maximum survives prepending strictly smaller elements. -/
lemma firstMaxByScore_append_of_lt (l₁ : List RankedHospital) {r : List RankedHospital}
    {c : RankedHospital} (hr : firstMaxByScore r = some c)
    (h : ∀ x ∈ l₁, x.score < c.score) : firstMaxByScore (l₁ ++ r) = some c := by
  induction l₁ with
  | nil => simpa using hr
  | cons a l ih =>
    have ih2 : firstMaxByScore (l ++ r) = some c :=
      ih fun x hx => h x (List.mem_cons_of_mem a hx)
    have ha : c.score > a.score := h a (List.mem_cons_self a l)
    simp only [List.cons_append, firstMaxByScore, List.append_eq]
    rw [ih2]
    simp [ha]

/-- Every accumulated candidate comes from an available report row and carries
that row's hospital and score. -/
lemma mem_ranked_hospitals {reports : List HospitalReport} {c : RankedHospital}
    (h : c ∈ ranked_hospitals reports) :
    ∃ r ∈ reports, r.2.1.available = true ∧ c.score = reportScore r ∧
      c.hospital = r.1 ∧ c.travel_time = clampMin1 r.2.2.travel_time := by
  rcases List.mem_filterMap.mp h with ⟨r, hr, hmk⟩
  by_cases hav : r.2.1.available = true
  · rw [mkRankedEntry_of_available _ _ _ hav] at hmk
    simp only [Option.some.injEq] at hmk
    refine ⟨r, hr, hav, ?_, ?_, ?_⟩ <;> (rw [← hmk]; try rfl)
  · rw [mkRankedEntry_of_unavailable _ _ _ (Bool.not_eq_true _ ▸ hav)] at hmk
    cases hmk

/-- C1: with hospital A reporting travel_time 10 and wait_time 10 and hospital
B reporting travel_time 5 and wait_time 40, both available, the candidate
scores are 0.7 * (1/travel_time) + 0.3 * (1/wait_time), namely 0.10 for A and
0.1475 for B, and selection returns B, the maximum-score candidate, in either
input order. -/
theorem select_returns_max_score_example (A B : Hospital) (dA dB : ℚ) :
    (ranked_hospitals
        [(A, { available := true, wait_time := 10 }, { travel_time := 10, distance_km := dA }),
         (B, { available := true, wait_time := 40 }, { travel_time := 5, distance_km := dB })]).map
      (fun c => c.score) = [0.10, 0.1475] ∧
    _select_optimal_hospital
        [(A, { available := true, wait_time := 10 }, { travel_time := 10, distance_km := dA }),
         (B, { available := true, wait_time := 40 }, { travel_time := 5, distance_km := dB })] =
      some B ∧
    _select_optimal_hospital
        [(B, { available := true, wait_time := 40 }, { travel_time := 5, distance_km := dB }),
         (A, { available := true, wait_time := 10 }, { travel_time := 10, distance_km := dA })] =
      some B := by
  refine ⟨?_, ?_, ?_⟩
  · norm_num [ranked_hospitals, mkRankedEntry, List.filterMap_cons]
  · norm_num [ranked_hospitals, mkRankedEntry, _select_optimal_hospital, sortByScoreDesc,
      insertByScoreDesc, List.filterMap_cons]
  · norm_num [ranked_hospitals, mkRankedEntry, _select_optimal_hospital, sortByScoreDesc,
      insertByScoreDesc, List.filterMap_cons]

/-- C2: when two available hospitals obtain identical maximum composite scores,
selection returns the one appearing first in the input list order. -/
theorem select_tie_first_seen_wins
    (pre mid post : List HospitalReport) (a b : HospitalReport)
    (ha : a.2.1.available = true) (hb : b.2.1.available = true)
    (hab : reportScore a = reportScore b)
    (hmax : ∀ x ∈ pre ++ a :: (mid ++ b :: post), x.2.1.available = true →
      reportScore x ≤ reportScore a)
    (hpre : ∀ x ∈ pre, x.2.1.available = true → reportScore x < reportScore a) :
    _select_optimal_hospital (pre ++ a :: (mid ++ b :: post)) = some a.1 := by
  have hsplit : ranked_hospitals (pre ++ a :: (mid ++ b :: post)) =
      ranked_hospitals pre ++
        ({ hospital := a.1
           travel_time := clampMin1 a.2.2.travel_time
           score := reportScore a } : RankedHospital) ::
          ranked_hospitals (mid ++ b :: post) := by
    simp [ranked_hospitals, List.filterMap_append, List.filterMap_cons,
      mkRankedEntry_of_available _ _ _ ha, reportScore]
  have hle : ∀ x ∈ ranked_hospitals (mid ++ b :: post), x.score ≤ reportScore a := by
    intro x hx
    rcases mem_ranked_hospitals hx with ⟨r, hr, hrav, hscore, -, -⟩
    rw [hscore]
    exact hmax r (List.mem_append_right pre (List.mem_cons_of_mem a hr)) hrav
  have hlt : ∀ x ∈ ranked_hospitals pre, x.score < reportScore a := by
    intro x hx
    rcases mem_ranked_hospitals hx with ⟨r, hr, hrav, hscore, -, -⟩
    rw [hscore]
    exact hpre r hr hrav
  rw [select_eq_firstMax, hsplit,
    firstMaxByScore_append_of_lt _ (firstMaxByScore_cons_of_le _ _ hle) hlt]
  rfl

/-- Hospital record used by concrete instances below (the first configured
hospital). -/
def cityGeneral : Hospital :=
  { id := "hosp_a"
    name := "City General Hospital"
    address := "123 Main St, Anytown"
    contact_number := "+11234567890"
    coordinates := { lat := 34.0522, lon := -118.2437 } }

/-- Hospital record used by concrete instances below (the second configured
hospital). -/
def communityCare : Hospital :=
  { id := "hosp_b"
    name := "Community Care Center"
    address := "456 Oak Ave, Anytown"
    contact_number := "+11234567891"
    coordinates := { lat := 34.0600, lon := -118.2500 } }

/-- Report row for concrete instances: first hospital, available, wait 20,
travel 8. -/
def tieReportA : HospitalReport :=
  (cityGeneral, { available := true, wait_time := 20 }, { travel_time := 8, distance_km := 3 })

/-- Report row for concrete instances: second hospital, available, same wait 20
and travel 8, hence the same composite score. -/
def tieReportB : HospitalReport :=
  (communityCare, { available := true, wait_time := 20 }, { travel_time := 8, distance_km := 5 })

/-- Witness for C2: two available hospitals with identical scores; selection
returns the first-listed one. -/
theorem select_tie_first_seen_wins_witness :
    (tieReportA.2.1.available = true ∧ tieReportB.2.1.available = true ∧
      reportScore tieReportA = reportScore tieReportB ∧
      (∀ x ∈ ([] : List HospitalReport) ++ tieReportA :: ([] ++ tieReportB :: []),
        x.2.1.available = true → reportScore x ≤ reportScore tieReportA) ∧
      (∀ x ∈ ([] : List HospitalReport), x.2.1.available = true →
        reportScore x < reportScore tieReportA)) ∧
    _select_optimal_hospital
        (([] : List HospitalReport) ++ tieReportA :: ([] ++ tieReportB :: [])) =
      some tieReportA.1 := by
  have hmax : ∀ x ∈ ([] : List HospitalReport) ++ tieReportA :: ([] ++ tieReportB :: []),
      x.2.1.available = true → reportScore x ≤ reportScore tieReportA := by
    intro x hx _
    simp only [List.nil_append] at hx
    rcases List.mem_cons.mp hx with rfl | hx
    · exact le_refl _
    · rcases List.mem_cons.mp hx with rfl | hx
      · exact le_of_eq rfl
      · cases hx
  have hpre : ∀ x ∈ ([] : List HospitalReport), x.2.1.available = true →
      reportScore x < reportScore tieReportA := by
    intro x hx _
    cases hx
  exact ⟨⟨rfl, rfl, rfl, hmax, hpre⟩,
    select_tie_first_seen_wins [] [] [] tieReportA tieReportB rfl rfl rfl hmax hpre⟩

/-- C3: selection returns none exactly when the hospital list is empty or every
availability report says unavailable; otherwise it returns some hospital. -/
theorem select_none_iff_no_available (reports : List HospitalReport) :
    _select_optimal_hospital reports = none ↔
      (reports = [] ∨ ∀ r ∈ reports, r.2.1.available = false) := by
  rw [select_eq_firstMax, Option.map_eq_none', firstMaxByScore_eq_none,
    ranked_hospitals, List.filterMap_eq_nil]
  constructor
  · intro h
    exact Or.inr fun r hr => (mkRankedEntry_eq_none_iff _ _ _).mp (h r hr)
  · rintro (rfl | h)
    · simp
    · exact fun r hr => (mkRankedEntry_eq_none_iff _ _ _).mpr (h r hr)

/-- C4: for every availability and traffic report, including zero wait or
travel time, the score denominators are the values clamped to a minimum of 1,
which are at least 1 and in particular never zero. -/
theorem score_denominators_never_zero (hospital : Hospital)
    (availability : HospitalAvailability) (traffic : TrafficAnalysis) :
    1 ≤ clampMin1 traffic.travel_time ∧ 1 ≤ clampMin1 availability.wait_time ∧
    (clampMin1 traffic.travel_time : ℚ) ≠ 0 ∧ (clampMin1 availability.wait_time : ℚ) ≠ 0 ∧
    mkRankedEntry hospital availability traffic =
      (if availability.available then
        some { hospital := hospital
               travel_time := clampMin1 traffic.travel_time
               score := 0.7 * (1 / (clampMin1 traffic.travel_time : ℚ)) +
                 0.3 * (1 / (clampMin1 availability.wait_time : ℚ)) }
      else none) := by
  have h1 : 1 ≤ clampMin1 traffic.travel_time := by
    unfold clampMin1; split <;> omega
  have h2 : 1 ≤ clampMin1 availability.wait_time := by
    unfold clampMin1; split <;> omega
  refine ⟨h1, h2, ?_, ?_, ?_⟩
  · exact Nat.cast_ne_zero.mpr (by omega)
  · exact Nat.cast_ne_zero.mpr (by omega)
  · cases hav : availability.available <;> simp [mkRankedEntry, clampMin1, hav]

/-- C10: every candidate accumulated during selection has clamped travel time
at least 1 and a composite score strictly greater than 0 and at most 1. -/
theorem candidate_scores_pos_le_one (reports : List HospitalReport)
    (c : RankedHospital) (hc : c ∈ ranked_hospitals reports) :
    1 ≤ c.travel_time ∧ 0 < c.score ∧ c.score ≤ 1 := by
  rcases mem_ranked_hospitals hc with ⟨r, -, -, hscore, -, htt⟩
  have hctn : 1 ≤ clampMin1 r.2.2.travel_time := by unfold clampMin1; split <;> omega
  have hcwn : 1 ≤ clampMin1 r.2.1.wait_time := by unfold clampMin1; split <;> omega
  have hct : (1 : ℚ) ≤ (clampMin1 r.2.2.travel_time : ℚ) := by exact_mod_cast hctn
  have hcw : (1 : ℚ) ≤ (clampMin1 r.2.1.wait_time : ℚ) := by exact_mod_cast hcwn
  have hctpos : (0 : ℚ) < (clampMin1 r.2.2.travel_time : ℚ) := lt_of_lt_of_le one_pos hct
  have hcwpos : (0 : ℚ) < (clampMin1 r.2.1.wait_time : ℚ) := lt_of_lt_of_le one_pos hcw
  have ht1 : 1 / (clampMin1 r.2.2.travel_time : ℚ) ≤ 1 := by
    rw [div_le_one hctpos]; exact hct
  have hw1 : 1 / (clampMin1 r.2.1.wait_time : ℚ) ≤ 1 := by
    rw [div_le_one hcwpos]; exact hcw
  have htpos : 0 < 1 / (clampMin1 r.2.2.travel_time : ℚ) := by positivity
  have hwpos : 0 < 1 / (clampMin1 r.2.1.wait_time : ℚ) := by positivity
  refine ⟨by rw [htt]; exact hctn, ?_, ?_⟩
  · rw [hscore]
    unfold reportScore candScore
    have h7 : (0.7 : ℚ) = 7 / 10 := by norm_num
    have h3 : (0.3 : ℚ) = 3 / 10 := by norm_num
    rw [h7, h3]
    linarith
  · rw [hscore]
    unfold reportScore candScore
    have h7 : (0.7 : ℚ) = 7 / 10 := by norm_num
    have h3 : (0.3 : ℚ) = 3 / 10 := by norm_num
    rw [h7, h3]
    linarith

/-- Candidate the witness report row produces. -/
def tieCandA : RankedHospital :=
  { hospital := cityGeneral
    travel_time := 8
    score := 0.7 * (1 / (8 : ℚ)) + 0.3 * (1 / (20 : ℚ)) }

/-- Membership of the witness candidate in the accumulated candidate set. -/
lemma tieCandA_mem : tieCandA ∈ ranked_hospitals [tieReportA] := by
  norm_num [ranked_hospitals, mkRankedEntry, List.filterMap_cons, tieCandA, tieReportA]

/-- Witness for C10: the concrete candidate has score 0.1075, strictly between
0 and 1. -/
theorem candidate_scores_pos_le_one_witness :
    tieCandA ∈ ranked_hospitals [tieReportA] ∧
      (1 ≤ tieCandA.travel_time ∧ 0 < tieCandA.score ∧ tieCandA.score ≤ 1) :=
  ⟨tieCandA_mem, candidate_scores_pos_le_one [tieReportA] tieCandA tieCandA_mem⟩

/-- C5: any description whose lower-cased text contains "chest pain" together
with "arm" or "left" is classified critical with the fixed summary phrase,
whatever the letter case of the input. -/
theorem classify_chest_pain_arm_or_left_critical (description : String)
    (h1 : containsSubstring (strToLower description) "chest pain" = true)
    (h2 : containsSubstring (strToLower description) "arm" = true ∨
      containsSubstring (strToLower description) "left" = true) :
    _analyze_symptoms description = ("Severe chest pain, arm numbness", "critical") := by
  unfold _analyze_symptoms
  rcases h2 with h2 | h2 <;> simp [h1, h2]

/-- Witness for C5: a mixed-case description matching rule 1. -/
theorem classify_chest_pain_arm_or_left_critical_witness :
    (containsSubstring (strToLower "I have CHEST PAIN and my Left ARM hurts") "chest pain" = true ∧
      (containsSubstring (strToLower "I have CHEST PAIN and my Left ARM hurts") "arm" = true ∨
        containsSubstring (strToLower "I have CHEST PAIN and my Left ARM hurts") "left" = true)) ∧
    _analyze_symptoms "I have CHEST PAIN and my Left ARM hurts" =
      ("Severe chest pain, arm numbness", "critical") :=
  ⟨⟨by decide, Or.inl (by decide)⟩,
    classify_chest_pain_arm_or_left_critical _ (by decide) (Or.inl (by decide))⟩

/-- C6: the rule list is ordered and the first matching rule wins: a
description matching both the rule-1 keywords and the rule-2 keyword gets
rule 1's result, which differs from rule 2's result. -/
theorem classify_first_matching_rule_wins (description : String)
    (h1 : containsSubstring (strToLower description) "chest pain" = true)
    (h2 : containsSubstring (strToLower description) "arm" = true ∨
      containsSubstring (strToLower description) "left" = true)
    (h3 : containsSubstring (strToLower description) "difficulty breathing" = true) :
    _analyze_symptoms description = ("Severe chest pain, arm numbness", "critical") ∧
    _analyze_symptoms description ≠ ("Difficulty breathing", "critical") := by
  have heq : _analyze_symptoms description = ("Severe chest pain, arm numbness", "critical") := by
    unfold _analyze_symptoms
    rcases h2 with h2 | h2 <;> simp [h1, h2]
  refine ⟨heq, ?_⟩
  rw [heq]
  decide

/-- Witness for C6: a description matching rule 1 and rule 2 simultaneously. -/
theorem classify_first_matching_rule_wins_witness :
    (containsSubstring (strToLower "chest pain, left arm numb, difficulty breathing") "chest pain" = true ∧
      (containsSubstring (strToLower "chest pain, left arm numb, difficulty breathing") "arm" = true ∨
        containsSubstring (strToLower "chest pain, left arm numb, difficulty breathing") "left" = true) ∧
      containsSubstring (strToLower "chest pain, left arm numb, difficulty breathing") "difficulty breathing" = true) ∧
    (_analyze_symptoms "chest pain, left arm numb, difficulty breathing" =
        ("Severe chest pain, arm numbness", "critical") ∧
      _analyze_symptoms "chest pain, left arm numb, difficulty breathing" ≠
        ("Difficulty breathing", "critical")) :=
  ⟨⟨by decide, Or.inl (by decide), by decide⟩,
    classify_first_matching_rule_wins _ (by decide) (Or.inl (by decide)) (by decide)⟩

/-- C7: a description matching neither rule is classified moderate with the
lower-cased input text, unchanged, as summary; the function is total. -/
theorem classify_default_moderate (description : String)
    (h1 : (containsSubstring (strToLower description) "chest pain" &&
      (containsSubstring (strToLower description) "arm" ||
        containsSubstring (strToLower description) "left")) = false)
    (h2 : containsSubstring (strToLower description) "difficulty breathing" = false) :
    _analyze_symptoms description = (strToLower description, "moderate") := by
  unfold _analyze_symptoms
  simp [h1, h2]

/-- Witness for C7: a description matching neither rule. -/
theorem classify_default_moderate_witness :
    ((containsSubstring (strToLower "I have a Stomach Ache") "chest pain" &&
        (containsSubstring (strToLower "I have a Stomach Ache") "arm" ||
          containsSubstring (strToLower "I have a Stomach Ache") "left")) = false ∧
      containsSubstring (strToLower "I have a Stomach Ache") "difficulty breathing" = false) ∧
    _analyze_symptoms "I have a Stomach Ache" = (strToLower "I have a Stomach Ache", "moderate") :=
  ⟨⟨by decide, by decide⟩, classify_default_moderate _ (by decide) (by decide)⟩

/-- Report row making the first configured hospital available with wait 10 and
travel 10, used to exhibit a protocol run that reaches the alert sink. -/
def availableReportA : HospitalReport :=
  (cityGeneral, { available := true, wait_time := 10 }, { travel_time := 10, distance_km := 1 })

/-- Selection on the single available report row returns its hospital. -/
lemma select_availableReportA :
    _select_optimal_hospital [availableReportA] = some cityGeneral := by
  norm_num [_select_optimal_hospital, ranked_hospitals, mkRankedEntry, sortByScoreDesc,
    insertByScoreDesc, List.filterMap_cons, availableReportA]

/-- Counterexample to C8 as stated: the description "I feel a sharp pain in my
chest and my arm is numb" does not contain the phrase "chest pain", so triage
classifies it moderate, and with an available hospital the orchestrator does
not skip selection: it calls the alert sink once. -/
theorem protocol_sample_description_counterexample :
    (_analyze_symptoms "I feel a sharp pain in my chest and my arm is numb").2 = "moderate" ∧
    (execute_emergency_protocol "I feel a sharp pain in my chest and my arm is numb" true
        [availableReportA] Config.EMERGENCY_CONTACTS).alerts = [cityGeneral] := by
  have hmod : (_analyze_symptoms "I feel a sharp pain in my chest and my arm is numb").2 =
      "moderate" := by decide
  refine ⟨hmod, ?_⟩
  have hne : ¬ ((_analyze_symptoms "I feel a sharp pain in my chest and my arm is numb").2 =
      "critical") := by
    rw [hmod]; decide
  simp only [execute_emergency_protocol]
  rw [if_neg (by decide), if_neg hne]
  simp only [select_availableReportA]

/-- C8 amended: for every protocol run where triage classifies the severity as
critical, the orchestrator skips hospital selection entirely (the result is the
same for every report list), notifies each configured contact once, and makes
zero calls to the alert sink; the witness shows the path on the critical
description "I feel a sharp chest pain and my arm is numb". -/
theorem protocol_critical_skips_selection (voice_input : String) (auto_detected : Bool)
    (reports : List HospitalReport) (contacts : List EmergencyContact)
    (hcrit : (_analyze_symptoms voice_input).2 = "critical") :
    execute_emergency_protocol voice_input auto_detected reports contacts =
      { notified_contacts := contacts, alerts := [], no_emergency := false } := by
  have hv : voice_input ≠ "" := by
    intro h
    rw [h] at hcrit
    revert hcrit
    decide
  simp only [execute_emergency_protocol]
  rw [if_neg (by simp [hv]), if_pos hcrit]

/-- Witness for C8 amended: a critical description; the protocol notifies both
configured contacts and alerts nobody, whatever the reports say. -/
theorem protocol_critical_skips_selection_witness :
    (_analyze_symptoms "I feel a sharp chest pain and my arm is numb").2 = "critical" ∧
    execute_emergency_protocol "I feel a sharp chest pain and my arm is numb" false
        [availableReportA] Config.EMERGENCY_CONTACTS =
      { notified_contacts := Config.EMERGENCY_CONTACTS, alerts := [], no_emergency := false } :=
  ⟨by decide,
    protocol_critical_skips_selection _ _ _ _ (by decide)⟩

/-- C9: the protocol notifies the configured contacts on every run except the
early no-emergency exit, and that exit happens exactly when the voice input is
empty and no trigger fired; this covers the critical path, the
no-available-hospital path and the hospital-found path alike. -/
theorem protocol_notifies_unless_no_emergency (voice_input : String) (auto_detected : Bool)
    (reports : List HospitalReport) (contacts : List EmergencyContact) :
    (execute_emergency_protocol voice_input auto_detected reports contacts).notified_contacts =
      (if voice_input = "" && !auto_detected then [] else contacts) ∧
    (execute_emergency_protocol voice_input auto_detected reports contacts).no_emergency =
      (voice_input = "" && !auto_detected) := by
  by_cases h : (decide (voice_input = "") && !auto_detected) = true
  · simp [execute_emergency_protocol, h]
  · rcases hsel : _select_optimal_hospital reports with - | best <;>
      by_cases hc : (_analyze_symptoms voice_input).2 = "critical" <;>
        simp [execute_emergency_protocol, h, hc, hsel]
